import Mathlib

/-!
Shallow embedding of the `multi-result-beu` repository: a serverless proxy
handler that validates a student result lookup request, constructs a batch of
five registration numbers, fetches each from an upstream API and normalizes
the upstream responses into a client-facing JSON array.

Two source files are embedded:
* `src/api/regular/result.js` (the fixed handler), and
* `src/unnamed/part_000` (near-duplicate with the `/^d{11}$/` regex bug).

JavaScript strings are modelled as Lean `String`, JS numbers occurring in the
handler as `Int`/`Nat` (all numbers involved are integral), JSON values as the
inductive `JsonVal`, and the upstream network as an oracle mapping the target
URL of each issued fetch to an outcome.  Exceptions thrown by JS code are
modelled with `Except`.
-/

namespace BeuProxy

/-! ### Character-level helpers (JS semantics) -/

/-- `\d` of a JavaScript regular expression: exactly the ASCII digits 0-9. -/
def isDigitChar (c : Char) : Bool := decide (48 ≤ c.toNat ∧ c.toNat ≤ 57)

/-- Whitespace skipped by JS `parseInt` (StrWhiteSpaceChar: tab, LF, VT, FF,
CR, space, NBSP, BOM; the other Unicode space separators are omitted as they
behave identically for the inputs considered here). -/
def jsWhitespace (c : Char) : Bool :=
  decide (c.toNat = 32 ∨ c.toNat = 9 ∨ c.toNat = 10 ∨ c.toNat = 11 ∨
          c.toNat = 12 ∨ c.toNat = 13 ∨ c.toNat = 160 ∨ c.toNat = 65279)

/-- ASCII fragment of JS `String.prototype.toUpperCase` (sufficient for the
semester parameter, which is compared against the Roman numerals I-VIII). -/
def jsToUpperChar (c : Char) : Char :=
  if 97 ≤ c.toNat ∧ c.toNat ≤ 122 then Char.ofNat (c.toNat - 32) else c

/-- JS `semester.toUpperCase()` on the ASCII fragment. -/
def jsToUpperCase (s : String) : String := ⟨s.data.map jsToUpperChar⟩

/-! ### Decimal rendering of numbers (JS `Number.prototype.toString`) -/

/-- Fuel-carrying helper producing the decimal digits of `n` (fuel keeps the
recursion structural so that the kernel can evaluate it). -/
def decDigitsAux : Nat → Nat → List Char
  | 0, _ => []
  | fuel + 1, n =>
    if n < 10 then [Nat.digitChar n]
    else decDigitsAux fuel (n / 10) ++ [Nat.digitChar (n % 10)]

/-- Decimal digit string of a natural number (no sign, no leading zeros). -/
def decDigits (n : Nat) : List Char := decDigitsAux (n + 1) n

/-- JS `n.toString()` for an integral JS number: decimal digits, with a
leading minus sign for negative values. -/
def jsNumToString (i : Int) : String :=
  if i < 0 then ⟨'-' :: decDigits i.natAbs⟩ else ⟨decDigits i.natAbs⟩

/-- JS `s.padStart(3, '0')` from `result.js` line 97: left-pad with zeros to
at least three characters. -/
def padStart3 (s : String) : String :=
  if 3 ≤ s.data.length then s else ⟨List.replicate (3 - s.data.length) '0' ++ s.data⟩

/-! ### JS `parseInt` -/

/-- The numeric value of a character as a digit in the given radix
(`0-9`, `a-z`, `A-Z`), or `none` if it is not a valid digit. -/
def digitValue (radix : Nat) (c : Char) : Option Nat :=
  let raw : Option Nat :=
    if isDigitChar c then some (c.toNat - 48)
    else if 97 ≤ c.toNat ∧ c.toNat ≤ 122 then some (c.toNat - 97 + 10)
    else if 65 ≤ c.toNat ∧ c.toNat ≤ 90 then some (c.toNat - 65 + 10)
    else none
  match raw with
  | some d => if d < radix then some d else none
  | none => none

/-- Longest prefix of radix-`radix` digits, accumulated into a value; `none`
when no digit at all was consumed (JS `NaN`). -/
def parseDigits (radix : Nat) : List Char → Nat → Bool → Option Nat
  | [], acc, seen => if seen then some acc else none
  | c :: rest, acc, seen =>
    match digitValue radix c with
    | some d => parseDigits radix rest (acc * radix + d) true
    | none => if seen then some acc else none

/-- Sign contributed by an optional leading `-` (codepoint 45). -/
def signOf : List Char → Int
  | c :: _ => if c.toNat = 45 then -1 else 1
  | [] => 1

/-- Drop an optional leading `-` (45) or `+` (43). -/
def dropSign : List Char → List Char
  | c :: rest => if c.toNat = 45 ∨ c.toNat = 43 then rest else c :: rest
  | [] => []

/-- Radix-16 detection of JS `parseInt` when no radix argument is given:
a leading `0x`/`0X` selects base 16 and is stripped. -/
def hexSplit : List Char → Nat × List Char
  | c0 :: c1 :: rest =>
    if c0.toNat = 48 ∧ (c1.toNat = 120 ∨ c1.toNat = 88) then (16, rest)
    else (10, c0 :: c1 :: rest)
  | cs => (10, cs)

/-- JS `parseInt(s)` (no radix argument), used on the `year` parameter:
skip whitespace, optional sign, optional `0x` prefix, longest digit prefix;
`none` models `NaN`. -/
def parseIntNoRadix (s : String) : Option Int :=
  let cs := s.data.dropWhile jsWhitespace
  let sign := signOf cs
  let cs2 := dropSign cs
  let rcs := hexSplit cs2
  match parseDigits rcs.1 rcs.2 0 false with
  | none => none
  | some v => some (sign * (v : Int))

/-- JS `parseInt(s, 10)`, used on the last three characters of `reg_no`. -/
def parseIntRadix10 (s : String) : Option Int :=
  let cs := s.data.dropWhile jsWhitespace
  let sign := signOf cs
  let cs2 := dropSign cs
  match parseDigits 10 cs2 0 false with
  | none => none
  | some v => some (sign * (v : Int))

/-! ### JSON values -/

/-- JSON values as produced by `apiResponse.json()`.  Numbers are modelled as
`Int` (every number the handler inspects is an integral status code). -/
inductive JsonVal where
  | jnull
  | jbool (b : Bool)
  | jnum (n : Int)
  | jstr (s : String)
  | jarr (elems : List JsonVal)
  | jobj (fields : List (String × JsonVal))

/-- JS truthiness of a JSON value (`0`, `""`, `null`, `false` are falsy). -/
def truthy : JsonVal → Bool
  | .jnull => false
  | .jbool b => b
  | .jnum n => decide (n ≠ 0)
  | .jstr s => decide (s ≠ "")
  | .jarr _ => true
  | .jobj _ => true

/-- Property lookup on an association list of object fields (first match;
objects produced by `JSON.parse` have unique keys). -/
def lookupField : List (String × JsonVal) → String → Option JsonVal
  | [], _ => none
  | (k2, v) :: rest, k => if k2 = k then some v else lookupField rest k

/-- JS property access `v.k` on a non-null value: a field of an object,
`undefined` (modelled as `none`) otherwise.  Access on `null` throws and is
handled separately at the call sites. -/
def getField (v : JsonVal) (k : String) : Option JsonVal :=
  match v with
  | .jobj fields => lookupField fields k
  | _ => none

/-- JS strict equality `v === n` against a number literal. -/
def strictEqNum (v : Option JsonVal) (n : Int) : Bool :=
  match v with
  | some (.jnum m) => decide (m = n)
  | _ => false

/-- Truthiness of a possibly-`undefined` property. -/
def truthyOpt : Option JsonVal → Bool
  | none => false
  | some v => truthy v

mutual

/-- JS `String(v)` conversion of a JSON value (template-literal
interpolation); arrays stringify as their elements joined by commas with
`null` elements rendered empty, objects as `"[object Object]"`. -/
def jsToString : JsonVal → String
  | .jnull => "null"
  | .jbool true => "true"
  | .jbool false => "false"
  | .jnum n => jsNumToString n
  | .jstr s => s
  | .jobj _ => "[object Object]"
  | .jarr xs => String.intercalate "," (jsArrStrings xs)

/-- Element-wise stringification used by `Array.prototype.join`. -/
def jsArrStrings : List JsonVal → List String
  | [] => []
  | .jnull :: rest => "" :: jsArrStrings rest
  | v :: rest => jsToString v :: jsArrStrings rest

end

/-- Interpolating a possibly-`undefined` property into a template literal. -/
def jsToStringOpt : Option JsonVal → String
  | none => "undefined"
  | some v => jsToString v

/-- JS `v || fallback` followed by string interpolation, where `fallback` is
already a string (`jsonData.message || ...` in `fetchSingleResult`). -/
def jsOrVal (v : Option JsonVal) (fallback : String) : String :=
  if truthyOpt v then jsToStringOpt v else fallback

/-- JS `s || fallback` on a possibly-`undefined` string
(`val.reason || 'Unknown error'` in the handler). -/
def jsOrStr (r : Option String) (fallback : String) : String :=
  match r with
  | some s => if s = "" then fallback else s
  | none => fallback

/-! ### `encodeURIComponent` -/

/-- Characters left unescaped by JS `encodeURIComponent`:
`A-Z a-z 0-9 - _ . ! ~ * ( )` and the apostrophe (39). -/
def isUnreservedURIChar (c : Char) : Bool :=
  decide ((65 ≤ c.toNat ∧ c.toNat ≤ 90) ∨ (97 ≤ c.toNat ∧ c.toNat ≤ 122) ∨
          (48 ≤ c.toNat ∧ c.toNat ≤ 57) ∨ c.toNat = 45 ∨ c.toNat = 95 ∨
          c.toNat = 46 ∨ c.toNat = 33 ∨ c.toNat = 126 ∨ c.toNat = 42 ∨
          c.toNat = 39 ∨ c.toNat = 40 ∨ c.toNat = 41)

/-- UTF-8 bytes of a code point. -/
def utf8Bytes (n : Nat) : List Nat :=
  if n < 128 then [n]
  else if n < 2048 then [192 + n / 64, 128 + n % 64]
  else if n < 65536 then [224 + n / 4096, 128 + (n / 64) % 64, 128 + n % 64]
  else [240 + n / 262144, 128 + (n / 4096) % 64, 128 + (n / 64) % 64, 128 + n % 64]

/-- Uppercase hexadecimal digit. -/
def hexDigitChar (n : Nat) : Char :=
  if n < 10 then Char.ofNat (48 + n) else Char.ofNat (55 + n)

/-- Percent-encoding of one byte. -/
def percentEncodeByte (b : Nat) : List Char :=
  ['%', hexDigitChar (b / 16), hexDigitChar (b % 16)]

/-- JS `encodeURIComponent(exam_held)`. -/
def encodeURIComponent (s : String) : String :=
  ⟨(s.data.map fun c =>
      if isUnreservedURIChar c then [c]
      else ((utf8Bytes c.toNat).map percentEncodeByte).flatten).flatten⟩

/-! ### Configuration constants (`result.js` lines 4-6, identical in
`part_000`) -/

/-- Upstream API base URL. -/
def RESULT_API_BASE_URL : String := "https://beu-bih.ac.in/backend/v1/result/get-result"

/-- Timeout per individual upstream request in milliseconds. -/
def FETCH_TIMEOUT : Nat := 8000

/-- Number of students fetched per batch. -/
def BATCH_SIZE : Nat := 5

/-! ### The single-result fetch (`fetchSingleResult`, identical in both
source files) -/

/-- The `targetUrl` template literal of `fetchSingleResult`. -/
def targetUrlOf (regNo year semesterRoman encodedExamHeld : String) : String :=
  RESULT_API_BASE_URL ++ "?year=" ++ year ++ "&redg_no=" ++ regNo ++
    "&semester=" ++ semesterRoman ++ "&exam_held=" ++ encodedExamHeld

/-- An outbound HTTP request as issued by `fetchSingleResult`: the target
URL, the headers object passed to `fetch`, and the abort timer armed via
`setTimeout(() => controller.abort(), FETCH_TIMEOUT)`. -/
structure FetchRequest where
  url : String
  timeoutMs : Nat
  headers : List (String × String)
deriving DecidableEq

/-- The headers object of the `fetch` call. -/
def fetchHeaders (semesterRoman year encodedExamHeld : String) : List (String × String) :=
  [("Accept", "application/json, text/plain, */*"),
   ("User-Agent", "Mozilla/5.0 (Windows NT 10.0; Win64; x64) AppleWebKit/537.36 (KHTML, like Gecko) Chrome/91.0.4472.124 Safari/537.36"),
   ("Referer", "https://beu-bih.ac.in/result-two/some-exam?semester=" ++ semesterRoman ++
      "&session=" ++ year ++ "&exam_held=" ++ encodedExamHeld)]

/-- The request issued by one call of `fetchSingleResult`. -/
def fetchRequestOf (regNo year semesterRoman encodedExamHeld : String) : FetchRequest :=
  { url := targetUrlOf regNo year semesterRoman encodedExamHeld,
    timeoutMs := FETCH_TIMEOUT,
    headers := fetchHeaders semesterRoman year encodedExamHeld }

/-- Outcome of `await apiResponse.json()`: a parsed JSON value, or a thrown
parse error (name and message of the exception). -/
inductive JsonBody where
  | parsed (v : JsonVal)
  | threw (name message : String)

/-- Outcome of one upstream `fetch`: either the promise rejected with an
exception carrying a name and a message (`AbortError` when the abort timer
fired, network errors otherwise), or an HTTP response with its `ok` flag,
numeric status and body. -/
inductive UpstreamOutcome where
  | threw (name message : String)
  | response (ok : Bool) (httpStatus : Int) (body : JsonBody)

/-- The object resolved by `fetchSingleResult`: always a `status` string and
the attempted `regNo`; `reason` and `data` are present on some branches only
(`none` models an absent property). -/
structure FetchResult where
  status : String
  regNo : String
  reason : Option String := none
  data : Option JsonVal := none

/-- V8's message for the `TypeError` thrown by `jsonData.status` when
`jsonData` is `null` (`error.message` of the caught exception). -/
def nullStatusReadMessage : String :=
  "Cannot read properties of null (reading 'status')"

/-- `fetchSingleResult` (lines 9-46 of `result.js`): the upstream outcome at
the target URL is supplied by the oracle argument `o`.  Every thrown
exception is caught and turned into a `status: 'error'` object, so the
function is total (its promise always fulfills). -/
def fetchSingleResult (regNo : String) (o : UpstreamOutcome) : FetchResult :=
  match o with
  | .threw nm msg =>
    { status := "error", regNo := regNo,
      reason := some (if nm = "AbortError" then "Request Timed Out"
                      else "Fetch Error: " ++ msg) }
  | .response ok httpStatus body =>
    if ok = false then
      { status := "error", regNo := regNo,
        reason := some ("BEU API Error: HTTP " ++ jsNumToString httpStatus) }
    else
      match body with
      | .threw _ msg =>
        { status := "error", regNo := regNo, reason := some ("Fetch Error: " ++ msg) }
      | .parsed .jnull =>
        { status := "error", regNo := regNo,
          reason := some ("Fetch Error: " ++ nullStatusReadMessage) }
      | .parsed jsonData =>
        if strictEqNum (getField jsonData "status") 404 then
          { status := "not_found", regNo := regNo,
            reason := some (jsOrVal (getField jsonData "message") "Record not found.") }
        else if !(strictEqNum (getField jsonData "status") 200) ||
                !(truthyOpt (getField jsonData "data")) then
          { status := "error", regNo := regNo,
            reason := some ("BEU API Data Error: " ++
              jsOrVal (getField jsonData "message")
                ("Status " ++ jsToStringOpt (getField jsonData "status"))) }
        else
          { status := "success", regNo := regNo, data := getField jsonData "data" }

/-! ### Request / response model of the Vercel handler -/

/-- `req.query`: each parameter is absent (`none`) or a string (an empty
string arises from `?param=`). -/
structure Query where
  reg_no : Option String := none
  year : Option String := none
  semester : Option String := none
  exam_held : Option String := none
deriving DecidableEq

/-- The incoming request: HTTP method and query parameters. -/
structure Request where
  method : String
  query : Query
deriving DecidableEq

/-- One item of the client-facing batch response array.  Absent properties
are `none`. -/
structure BatchItem where
  regNo : String
  status : String
  data : Option JsonVal := none
  reason : Option String := none

/-- JSON body sent by the handler. -/
inductive Body where
  | empty
  | errorJson (error : String)
  | errorDetailsJson (error details : String)
  | batchJson (items : List BatchItem)

/-- The response sent by the handler: status code, headers in the order they
were set (the `Allow: [GET, OPTIONS]` array is rendered joined, as Node
serializes it), and the body. -/
structure Response where
  statusCode : Nat
  headers : List (String × String)
  body : Body

/-- The three CORS headers set at the top of the handler. -/
def corsHeaders : List (String × String) :=
  [("Access-Control-Allow-Origin", "*"),
   ("Access-Control-Allow-Methods", "GET, OPTIONS"),
   ("Access-Control-Allow-Headers", "Content-Type")]

/-! ### Validation and batch construction (`result.js` handler) -/

/-- `/^\d{11}$/.test(s)` of `result.js` line 67: exactly eleven ASCII
digits. -/
def testRegexDigits11 (s : String) : Bool :=
  decide (s.data.length = 11) && s.data.all isDigitChar

/-- `/^d{11}$/.test(s)` of `part_000` line 63: the pattern `d{11}` matches
eleven literal `d` characters, so the regex accepts exactly the string
`"ddddddddddd"`. -/
def testRegexLiteralD11 (s : String) : Bool := decide (s = "ddddddddddd")

/-- The keys of the `romanMap` object literal (its values 1-8 are all
truthy, so `romanMap[ns]` is truthy exactly when `ns` is one of the keys;
no inherited `Object.prototype` property is all-uppercase, so the uppercased
semester can never hit one). -/
def romanNumerals : List String := ["I", "II", "III", "IV", "V", "VI", "VII", "VIII"]

/-- `reg_no.slice(0, -3)`: all but the last three characters. -/
def sliceUpToNeg3 (s : String) : String := ⟨s.data.take (s.data.length - 3)⟩

/-- `reg_no.slice(-3)`: the last three characters. -/
def sliceLastThree (s : String) : String := ⟨s.data.drop (s.data.length - 3)⟩

/-- The suffix construction of `result.js` line 97:
`i >= 900 ? i.toString() : i.toString().padStart(3, '0')`. -/
def suffixFor (i : Int) : String :=
  if 900 ≤ i then jsNumToString i else padStart3 (jsNumToString i)

/-- The `registrationNumbers` array built by the loop
`for (let i = startNum; i <= endNum; i++)` with
`endNum = startNum + BATCH_SIZE - 1`: exactly the suffixes
`startNum, ..., startNum + 4` appended to the prefix. -/
def registrationNumbers (pfx : String) (startNum : Int) : List String :=
  (List.range BATCH_SIZE).map fun k : Nat => pfx ++ suffixFor (startNum + (k : Int))

/-- Data carried from a successful validation into the fetch phase. -/
structure Prep where
  yearStr : String
  normalizedSemester : String
  encodedExamHeld : String
  regNos : List String
deriving DecidableEq

/-- Error message of `result.js` for a bad `reg_no`. -/
def msgRegNo : String := "Invalid parameter. Use \"reg_no\" with a full 11-digit number."

/-- Error message for a bad `year`. -/
def msgYear : String := "Missing or invalid \"year\" parameter."

/-- Error message for a bad `semester`. -/
def msgSemester : String := "Missing or invalid \"semester\" parameter (use Roman numerals I-VIII)."

/-- Error message for a missing `exam_held`. -/
def msgExam : String := "Missing \"exam_held\" parameter."

/-- Error message of the (dead) `isNaN(startNum)` branch. -/
def msgParse : String := "Could not parse starting number from reg_no."

/-- Lines 63-99 of `result.js`: the early-return validation chain followed by
prefix/startNum extraction, `encodeURIComponent` and the batch loop.
`Except.error` is a 400 response with the given message. -/
def validateAndPrep (q : Query) : Except String Prep :=
  match q.reg_no with
  | none => Except.error msgRegNo
  | some rn =>
    if rn = "" then Except.error msgRegNo
    else if testRegexDigits11 rn = false then Except.error msgRegNo
    else
      match q.year with
      | none => Except.error msgYear
      | some y =>
        if y = "" then Except.error msgYear
        else if (parseIntNoRadix y).isNone then Except.error msgYear
        else
          match q.semester with
          | none => Except.error msgSemester
          | some sem =>
            let ns := jsToUpperCase sem
            if ns = "" then Except.error msgSemester
            else if romanNumerals.contains ns = false then Except.error msgSemester
            else
              match q.exam_held with
              | none => Except.error msgExam
              | some ex =>
                if ex = "" then Except.error msgExam
                else
                  match parseIntRadix10 (sliceLastThree rn) with
                  | none => Except.error msgParse
                  | some startNum =>
                    Except.ok { yearStr := y, normalizedSemester := ns,
                                encodedExamHeld := encodeURIComponent ex,
                                regNos := registrationNumbers (sliceUpToNeg3 rn) startNum }

/-! ### Fetch phase and response shaping -/

/-- One element of the `Promise.allSettled` result array. -/
inductive Settled where
  | fulfilled (value : FetchResult)
  | rejected

/-- `delete v.k` where `v` is the value of `val.data`: deleting a property of
`undefined` or `null` throws a `TypeError`; on an object it removes the key;
on any other primitive it is a no-op. -/
def jsDelete (v : Option JsonVal) (k : String) : Except String JsonVal :=
  match v with
  | none => Except.error "Cannot convert undefined or null to object"
  | some .jnull => Except.error "Cannot convert undefined or null to object"
  | some (.jobj fields) => Except.ok (.jobj (fields.filter fun f => f.1 != k))
  | some w => Except.ok w

/-- The per-item `switch` of the handler (lines 108-125 of `result.js`),
including the `else` branch for a rejected promise.  A thrown `TypeError`
from the `delete` statements propagates as `Except.error` (it would be
caught by the surrounding `try` and yield a 500 response). -/
def normalizeSettled (attempted : String) : Settled → Except String BatchItem
  | .fulfilled val =>
    if val.status = "success" then
      match jsDelete val.data "father_name" with
      | Except.error e => Except.error e
      | Except.ok d1 =>
        match jsDelete (some d1) "mother_name" with
        | Except.error e => Except.error e
        | Except.ok d2 =>
          Except.ok { regNo := val.regNo, status := "success", data := some d2 }
    else if val.status = "not_found" then
      Except.ok { regNo := val.regNo, status := "Record not found" }
    else
      Except.ok { regNo := val.regNo, status := "Error fetching result (temporary)",
                  reason := some (jsOrStr val.reason "Unknown error") }
  | .rejected =>
    Except.ok { regNo := attempted, status := "Error fetching result (temporary)",
                reason := some "Promise rejected" }

/-- `resultsSettled.map((result, index) => ...)`: each settled outcome is
paired with `registrationNumbers[index]`; the first thrown exception aborts
the map. -/
def mapSettledList : List (String × Settled) → Except String (List BatchItem)
  | [] => Except.ok []
  | (a, s) :: rest =>
    match normalizeSettled a s with
    | Except.error e => Except.error e
    | Except.ok item =>
      match mapSettledList rest with
      | Except.error e => Except.error e
      | Except.ok items => Except.ok (item :: items)

/-- The fetch requests issued by the handler: exactly one per constructed
registration number (`registrationNumbers.map(rn => fetchSingleResult(...))`,
no retries). -/
def issuedRequests (p : Prep) : List FetchRequest :=
  p.regNos.map fun rn => fetchRequestOf rn p.yearStr p.normalizedSemester p.encodedExamHeld

/-- Lines 101-125 of `result.js`: fan out `fetchSingleResult` over the batch
(the upstream outcome of each call is the oracle's value at its target URL;
`fetchSingleResult` is total, so every promise fulfills and
`Promise.allSettled` yields `fulfilled` entries in order), then shape the
response array. -/
def runBatch (p : Prep) (oracle : String → UpstreamOutcome) : Except String (List BatchItem) :=
  mapSettledList (p.regNos.map fun rn =>
    (rn, Settled.fulfilled (fetchSingleResult rn
      (oracle (targetUrlOf rn p.yearStr p.normalizedSemester p.encodedExamHeld)))))

/-- The full `result.js` handler (lines 49-131).  Returns the response sent
together with the list of upstream requests issued during the call. -/
def handler (req : Request) (oracle : String → UpstreamOutcome) : Response × List FetchRequest :=
  if req.method = "OPTIONS" then
    ({ statusCode := 204, headers := corsHeaders, body := Body.empty }, [])
  else if req.method ≠ "GET" then
    ({ statusCode := 405, headers := corsHeaders ++ [("Allow", "GET, OPTIONS")],
       body := Body.errorJson ("Method " ++ req.method ++ " Not Allowed") }, [])
  else
    match validateAndPrep req.query with
    | Except.error msg =>
      ({ statusCode := 400, headers := corsHeaders, body := Body.errorJson msg }, [])
    | Except.ok p =>
      match runBatch p oracle with
      | Except.ok items =>
        ({ statusCode := 200, headers := corsHeaders, body := Body.batchJson items },
         issuedRequests p)
      | Except.error m =>
        ({ statusCode := 500, headers := corsHeaders,
           body := Body.errorDetailsJson "Server error processing the batch." m },
         issuedRequests p)

/-! ### The `part_000` handler

`src/unnamed/part_000` contains the same configuration, the same
`fetchSingleResult` and the same fetch phase (character-for-character apart
from whitespace), so those embeddings are shared.  It differs in the
validation code: errors are collected in a `validationError` variable by two
`if`/`else if` chains (the second chain can overwrite the first), the
`reg_no` test uses the buggy `/^d{11}$/`, and the message strings differ. -/

/-- `part_000` error message for a bad `reg_no`. -/
def p0MsgRegNo : String := "Invalid parameter. Use \"reg_no\" with full 11-digit number."

/-- `part_000` error message for a bad `year`. -/
def p0MsgYear : String := "Missing or invalid \"year\"."

/-- `part_000` error message for a bad `semester`. -/
def p0MsgSemester : String := "Missing or invalid \"semester\" (Roman I-VIII)."

/-- `part_000` error message for a missing `exam_held`. -/
def p0MsgExam : String := "Missing \"exam_held\" parameter."

/-- `part_000` error message of the `isNaN(startNum)` branch. -/
def p0MsgParse : String := "Failed to parse number from reg_no."

/-- Lines 61-69 of `part_000`: the final value of `validationError`.  The
first chain checks `reg_no` then `year`; the second chain checks `semester`
then `exam_held` and, when it assigns, overwrites whatever the first chain
set. -/
def part000ValidationError (q : Query) : Option String :=
  let e1 : Option String :=
    match q.reg_no with
    | none => some p0MsgRegNo
    | some rn =>
      if rn = "" then some p0MsgRegNo
      else if testRegexLiteralD11 rn = false then some p0MsgRegNo
      else
        match q.year with
        | none => some p0MsgYear
        | some y =>
          if y = "" then some p0MsgYear
          else if (parseIntNoRadix y).isNone then some p0MsgYear
          else none
  match q.semester with
  | none => some p0MsgSemester
  | some sem =>
    let ns := jsToUpperCase sem
    if ns = "" then some p0MsgSemester
    else if romanNumerals.contains ns = false then some p0MsgSemester
    else
      match q.exam_held with
      | none => some p0MsgExam
      | some ex => if ex = "" then some p0MsgExam else e1

/-- Lines 61-81 of `part_000`: validation followed by the same prefix /
startNum / batch construction as `result.js`.  When validation passes,
`reg_no` is necessarily present (the `getD ""` default is unreachable: a
`none` reg_no always leaves `validationError` set). -/
def validateAndPrepPart000 (q : Query) : Except String Prep :=
  match part000ValidationError q with
  | some msg => Except.error msg
  | none =>
    let rn := q.reg_no.getD ""
    let ns := jsToUpperCase (q.semester.getD "")
    let ex := q.exam_held.getD ""
    match parseIntRadix10 (sliceLastThree rn) with
    | none => Except.error p0MsgParse
    | some startNum =>
      Except.ok { yearStr := q.year.getD "", normalizedSemester := ns,
                  encodedExamHeld := encodeURIComponent ex,
                  regNos := registrationNumbers (sliceUpToNeg3 rn) startNum }

/-- The full `part_000` handler (lines 48-112). -/
def handlerPart000 (req : Request) (oracle : String → UpstreamOutcome) :
    Response × List FetchRequest :=
  if req.method = "OPTIONS" then
    ({ statusCode := 204, headers := corsHeaders, body := Body.empty }, [])
  else if req.method ≠ "GET" then
    ({ statusCode := 405, headers := corsHeaders ++ [("Allow", "GET, OPTIONS")],
       body := Body.errorJson ("Method " ++ req.method ++ " Not Allowed") }, [])
  else
    match validateAndPrepPart000 req.query with
    | Except.error msg =>
      ({ statusCode := 400, headers := corsHeaders, body := Body.errorJson msg }, [])
    | Except.ok p =>
      match runBatch p oracle with
      | Except.ok items =>
        ({ statusCode := 200, headers := corsHeaders, body := Body.batchJson items },
         issuedRequests p)
      | Except.error m =>
        ({ statusCode := 500, headers := corsHeaders,
           body := Body.errorDetailsJson "Server error processing the batch." m },
         issuedRequests p)

/-! ### Spec-side definitions

These follow the wording of the specification / claims and are compared with
the source embeddings above. -/

/-- Spec wording of claim C4: the request is rejected iff `reg_no` is
missing or not a string of exactly 11 decimal digits, or `year` is missing
or does not parse as an integer, or `semester` (after uppercasing) is not a
Roman numeral I-VIII, or `exam_held` is missing or empty. -/
def specValidationRejects (q : Query) : Bool :=
  (match q.reg_no with
   | none => true
   | some rn => !(decide (rn.data.length = 11) && rn.data.all isDigitChar)) ||
  (match q.year with
   | none => true
   | some y => (parseIntNoRadix y).isNone) ||
  (match q.semester with
   | none => true
   | some sem => !(romanNumerals.contains (jsToUpperCase sem))) ||
  (match q.exam_held with
   | none => true
   | some ex => decide (ex = ""))

/-- Spec wording of claim C2: the integer value of a non-empty all-digit
string, read in base 10. -/
def decimalValue (s : String) : Option Nat :=
  if s.data ≠ [] ∧ s.data.all isDigitChar then
    some (s.data.foldl (fun a c => a * 10 + (c.toNat - 48)) 0)
  else none

/-! ### Derived total form of the per-item normalization

`removeKey`/`itemFor` are proof-layer companions of `jsDelete` /
`normalizeSettled`: on the values actually produced by `fetchSingleResult`
the `delete` statements cannot throw, and the fetch-then-normalize pipeline
computes `itemFor`.  The equivalence is proved below
(`normalize_fulfilled_fetch`). -/

/-- The non-throwing result of `delete v.k` (`v` not `null`/`undefined`). -/
def removeKey (d : JsonVal) (k : String) : JsonVal :=
  match d with
  | .jobj fields => .jobj (fields.filter fun f => f.1 != k)
  | w => w

/-- The batch item produced for registration number `rn` under upstream
outcome `o`. -/
def itemFor (rn : String) (o : UpstreamOutcome) : BatchItem :=
  let val := fetchSingleResult rn o
  if val.status = "success" then
    { regNo := val.regNo, status := "success",
      data := val.data.map fun d => removeKey (removeKey d "father_name") "mother_name" }
  else if val.status = "not_found" then
    { regNo := val.regNo, status := "Record not found" }
  else
    { regNo := val.regNo, status := "Error fetching result (temporary)",
      reason := some (jsOrStr val.reason "Unknown error") }

/-! ### Concrete fixtures used by the witnesses -/

/-- A query passing `result.js` validation. -/
def q0 : Query :=
  { reg_no := some "22105114001", year := some "2024",
    semester := some "i", exam_held := some "Dec2024" }

/-- A GET request with query `q0`. -/
def req0 : Request := { method := "GET", query := q0 }

/-- Upstream `data` object of the fixture (child record with the two
personally-identifying fields present). -/
def fields0 : List (String × JsonVal) :=
  [("name", JsonVal.jstr "STUDENT"), ("father_name", JsonVal.jstr "F"),
   ("mother_name", JsonVal.jstr "M"), ("sgpa", JsonVal.jstr "8.5")]

/-- Upstream JSON body of the fixture: status 200 with a data object. -/
def body0 : JsonVal :=
  JsonVal.jobj [("status", JsonVal.jnum 200), ("data", JsonVal.jobj fields0)]

/-- An oracle whose every upstream fetch succeeds with `body0`. -/
def oracleS : String → UpstreamOutcome :=
  fun _ => UpstreamOutcome.response true 200 (JsonBody.parsed body0)

/-- An oracle agreeing with `oracleS` everywhere except at one unrelated URL
that the fixture request never constructs. -/
def oracleT : String → UpstreamOutcome :=
  fun url =>
    if url = "https://example.com/unrelated" then
      UpstreamOutcome.threw "FetchError" "unrelated host"
    else oracleS url

/-- The `Prep` produced by `validateAndPrep q0`. -/
def p0 : Prep :=
  { yearStr := "2024", normalizedSemester := "I", encodedExamHeld := "Dec2024",
    regNos := ["22105114001", "22105114002", "22105114003", "22105114004",
               "22105114005"] }

/-- The stripped data object of the fixture. -/
def stripped0 : JsonVal :=
  JsonVal.jobj [("name", JsonVal.jstr "STUDENT"), ("sgpa", JsonVal.jstr "8.5")]

/-- The batch item produced for each fixture registration number. -/
def item0 (rn : String) : BatchItem :=
  { regNo := rn, status := "success", data := some stripped0 }

/-- The batch array of the fixture run. -/
def items0 : List BatchItem :=
  [item0 "22105114001", item0 "22105114002", item0 "22105114003",
   item0 "22105114004", item0 "22105114005"]

/-! ## Lemmas about decimal rendering -/

lemma decDigitsAux_congr : ∀ f1 : Nat, ∀ f2 n : Nat, n < f1 → n < f2 →
    decDigitsAux f1 n = decDigitsAux f2 n := by
  intro f1
  induction f1 with
  | zero => intro f2 n h1 _; omega
  | succ f ih =>
    intro f2 n h1 h2
    cases f2 with
    | zero => omega
    | succ g =>
      by_cases h10 : n < 10
      · simp [decDigitsAux, h10]
      · have hd : n / 10 < n := Nat.div_lt_self (by omega) (by omega)
        simp only [decDigitsAux, if_neg h10]
        rw [ih g (n / 10) (by omega) (by omega)]

lemma decDigits_eq (n : Nat) : decDigits n =
    if n < 10 then [Nat.digitChar n] else decDigits (n / 10) ++ [Nat.digitChar (n % 10)] := by
  show decDigitsAux (n + 1) n = _
  by_cases h10 : n < 10
  · simp [decDigitsAux, h10]
  · have hd : n / 10 < n := Nat.div_lt_self (by omega) (by omega)
    simp only [decDigitsAux, if_neg h10]
    rw [decDigitsAux_congr n (n / 10 + 1) (n / 10) (by omega) (by omega)]
    rfl

lemma decDigits_low {n : Nat} (h : n < 10) : decDigits n = [Nat.digitChar n] := by
  rw [decDigits_eq]; simp [h]

lemma decDigits_high {n : Nat} (h : 10 ≤ n) :
    decDigits n = decDigits (n / 10) ++ [Nat.digitChar (n % 10)] := by
  rw [decDigits_eq]; simp [Nat.not_lt.2 h]

lemma decDigits_ne_nil (n : Nat) : decDigits n ≠ [] := by
  by_cases h : n < 10
  · rw [decDigits_low h]; simp
  · rw [decDigits_high (by omega)]; simp

lemma decDigits_length_le (k : Nat) : ∀ n, n < 10 ^ (k + 1) → (decDigits n).length ≤ k + 1 := by
  induction k with
  | zero => intro n h; rw [decDigits_low (by simpa using h)]; simp
  | succ k ih =>
    intro n h
    by_cases h10 : n < 10
    · rw [decDigits_low h10]; simp
    · rw [decDigits_high (by omega)]
      simp only [List.length_append, List.length_singleton]
      have hlt : n / 10 < 10 ^ (k + 1) := by
        apply Nat.div_lt_of_lt_mul
        rw [pow_succ] at h
        omega
      have := ih (n / 10) hlt
      omega

lemma decDigits_length_ge (k : Nat) : ∀ n, 10 ^ k ≤ n → k + 1 ≤ (decDigits n).length := by
  induction k with
  | zero =>
    intro n _
    have hne := decDigits_ne_nil n
    cases hd : decDigits n with
    | nil => exact absurd hd hne
    | cons a l => simp
  | succ k ih =>
    intro n h
    have h10 : 10 ≤ n := by
      have hp : (10 : Nat) ^ 1 ≤ 10 ^ (k + 1) := Nat.pow_le_pow_right (by omega) (by omega)
      simpa using le_trans hp h
    rw [decDigits_high h10]
    simp only [List.length_append, List.length_singleton]
    have hdiv : 10 ^ k ≤ n / 10 := by
      rw [Nat.le_div_iff_mul_le (by omega)]
      rw [pow_succ] at h
      omega
    have := ih (n / 10) hdiv
    omega

lemma jsNumToString_nonneg {i : Int} (h : 0 ≤ i) :
    jsNumToString i = ⟨decDigits i.natAbs⟩ := by
  rw [jsNumToString, if_neg (by omega)]

lemma jsNumToString_length_nonneg {i : Int} (h : 0 ≤ i) :
    (jsNumToString i).data.length = (decDigits i.natAbs).length := by
  rw [jsNumToString_nonneg h]

lemma padStart3_length (s : String) :
    (padStart3 s).data.length = max 3 s.data.length := by
  rw [padStart3]
  by_cases h : 3 ≤ s.data.length
  · rw [if_pos h]; omega
  · rw [if_neg h]
    show (List.replicate (3 - s.data.length) '0' ++ s.data).length = _
    simp only [List.length_append, List.length_replicate]
    omega

lemma padStart3_of_ge {s : String} (h : 3 ≤ s.data.length) : padStart3 s = s := by
  rw [padStart3, if_pos h]

/-- On a non-negative number the conditional of `result.js` line 97 is just
`padStart(3, '0')` of the decimal string: for `i ≥ 900` the decimal string
already has at least three digits, so padding is the identity. -/
lemma suffixFor_eq_padStart {i : Int} (h : 0 ≤ i) :
    suffixFor i = padStart3 (jsNumToString i) := by
  rw [suffixFor]
  by_cases h900 : 900 ≤ i
  · rw [if_pos h900, padStart3_of_ge]
    rw [jsNumToString_length_nonneg h]
    have : (100 : Nat) ≤ i.natAbs := by omega
    have := decDigits_length_ge 2 i.natAbs (by simpa using this)
    omega
  · rw [if_neg h900]

lemma suffix_length_le_999 {i : Int} (h0 : 0 ≤ i) (h : i ≤ 999) :
    (suffixFor i).data.length = 3 := by
  rw [suffixFor_eq_padStart h0, padStart3_length, jsNumToString_length_nonneg h0]
  have hub : (decDigits i.natAbs).length ≤ 3 := by
    have : i.natAbs < 10 ^ 3 := by simp; omega
    simpa using decDigits_length_le 2 i.natAbs (by simpa using this)
  omega

lemma suffix_length_1000 {i : Int} (h : 1000 ≤ i) (h2 : i ≤ 9999) :
    (suffixFor i).data.length = 4 := by
  rw [suffixFor_eq_padStart (by omega), padStart3_length,
    jsNumToString_length_nonneg (by omega)]
  have hlb : 4 ≤ (decDigits i.natAbs).length := by
    have : (10 : Nat) ^ 3 ≤ i.natAbs := by simp; omega
    simpa using decDigits_length_ge 3 i.natAbs this
  have hub : (decDigits i.natAbs).length ≤ 4 := by
    have : i.natAbs < 10 ^ 4 := by simp; omega
    simpa using decDigits_length_le 3 i.natAbs this
  omega

/-! ## Lemmas about `parseInt` -/

lemma isDigitChar_iff {c : Char} : isDigitChar c = true ↔ 48 ≤ c.toNat ∧ c.toNat ≤ 57 := by
  simp [isDigitChar]

lemma digitValue_digit {c : Char} (h : isDigitChar c = true) :
    digitValue 10 c = some (c.toNat - 48) := by
  have hb := isDigitChar_iff.1 h
  rw [digitValue]
  simp only [h, if_true]
  rw [if_pos (by omega)]

lemma jsWhitespace_of_digit {c : Char} (h : isDigitChar c = true) :
    jsWhitespace c = false := by
  have hb := isDigitChar_iff.1 h
  simp only [jsWhitespace, decide_eq_false_iff_not]
  omega

lemma parseDigits_cons_digit {c : Char} (h : isDigitChar c = true)
    (rest : List Char) (acc : Nat) (seen : Bool) :
    parseDigits 10 (c :: rest) acc seen =
      parseDigits 10 rest (acc * 10 + (c.toNat - 48)) true := by
  rw [parseDigits, digitValue_digit h]

lemma parseDigits_digits (cs : List Char) :
    ∀ acc : Nat, (∀ c ∈ cs, isDigitChar c = true) →
    parseDigits 10 cs acc true =
      some (cs.foldl (fun a c => a * 10 + (c.toNat - 48)) acc) := by
  induction cs with
  | nil => intro acc _; rfl
  | cons c rest ih =>
    intro acc h
    have hc := h c (by simp)
    rw [parseDigits_cons_digit hc]
    simp only [List.foldl_cons]
    exact ih _ (fun x hx => h x (by simp [hx]))

/-- `parseInt(s, 10)` on a non-empty string of digit characters: no
whitespace is skipped, no sign is consumed, and the value is the base-10
foldl of the digits. -/
lemma parseIntRadix10_all_digits (s : String) (h1 : s.data ≠ [])
    (h2 : ∀ c ∈ s.data, isDigitChar c = true) :
    parseIntRadix10 s =
      some ((s.data.foldl (fun a c => a * 10 + (c.toNat - 48)) 0 : Nat) : Int) := by
  rw [parseIntRadix10]
  cases hd : s.data with
  | nil => exact absurd hd h1
  | cons c rest =>
    have hc : isDigitChar c = true := h2 c (by rw [hd]; simp)
    have hcb := isDigitChar_iff.1 hc
    have hw : jsWhitespace c = false := jsWhitespace_of_digit hc
    simp only [hd, List.dropWhile_cons, hw, Bool.false_eq_true, if_false]
    rw [signOf, dropSign, if_neg (by omega), if_neg (by omega)]
    rw [parseDigits_cons_digit hc]
    rw [parseDigits_digits rest _ (fun x hx => h2 x (by rw [hd]; simp [hx]))]
    simp

/-- The base-10 value of three digit characters is at most 999. -/
lemma foldl_three_digits_le {a b c : Char}
    (ha : isDigitChar a = true) (hb : isDigitChar b = true) (hc : isDigitChar c = true) :
    ([a, b, c].foldl (fun x d => x * 10 + (d.toNat - 48)) 0) ≤ 999 := by
  have h1 := isDigitChar_iff.1 ha
  have h2 := isDigitChar_iff.1 hb
  have h3 := isDigitChar_iff.1 hc
  simp only [List.foldl_cons, List.foldl_nil]
  omega

/-- Characterization of the `/^\d{11}$/` embedding. -/
lemma testRegexDigits11_iff {s : String} :
    testRegexDigits11 s = true ↔
      s.data.length = 11 ∧ ∀ c ∈ s.data, isDigitChar c = true := by
  simp [testRegexDigits11, List.all_eq_true]

lemma ne_empty_of_digits11 {s : String} (h : testRegexDigits11 s = true) : s ≠ "" := by
  intro he
  have := (testRegexDigits11_iff.1 h).1
  rw [he] at this
  simp at this

lemma sliceLastThree_of_digits11 {s : String} (h : testRegexDigits11 s = true) :
    (sliceLastThree s).data = s.data.drop 8 ∧
    (sliceLastThree s).data.length = 3 ∧
    (∀ c ∈ (sliceLastThree s).data, isDigitChar c = true) := by
  obtain ⟨hlen, hdig⟩ := testRegexDigits11_iff.1 h
  have hdata : (sliceLastThree s).data = s.data.drop 8 := by
    show s.data.drop (s.data.length - 3) = s.data.drop 8
    rw [hlen]
  refine ⟨hdata, ?_, ?_⟩
  · rw [hdata, List.length_drop, hlen]
  · intro c hcm
    rw [hdata] at hcm
    exact hdig c (List.drop_subset _ _ hcm)

/-- For an 11-digit `reg_no`, `parseInt(reg_no.slice(-3), 10)` succeeds with
a value between 0 and 999, and agrees with the plain decimal value of the
last three digits. -/
lemma startNum_parse {s : String} (h : testRegexDigits11 s = true) :
    ∃ v : Nat, parseIntRadix10 (sliceLastThree s) = some (v : Int) ∧ v ≤ 999 ∧
      decimalValue (sliceLastThree s) = some v := by
  obtain ⟨hdata, hlen, hdig⟩ := sliceLastThree_of_digits11 h
  have hne : (sliceLastThree s).data ≠ [] := by
    intro hnil; rw [hnil] at hlen; simp at hlen
  refine ⟨(sliceLastThree s).data.foldl (fun a c => a * 10 + (c.toNat - 48)) 0, ?_, ?_, ?_⟩
  · exact parseIntRadix10_all_digits _ hne hdig
  · obtain ⟨a, b, c, habc⟩ := List.length_eq_three.1 hlen
    rw [habc]
    exact foldl_three_digits_le (hdig a (by rw [habc]; simp))
      (hdig b (by rw [habc]; simp)) (hdig c (by rw [habc]; simp))
  · rw [decimalValue, if_pos ⟨hne, List.all_eq_true.2 hdig⟩]

/-! ## Lemmas about `fetchSingleResult` and the batch pipeline -/

lemma truthy_ne_jnull {d : JsonVal} (h : truthy d = true) : d ≠ JsonVal.jnull := by
  intro he
  rw [he] at h
  simp [truthy] at h

lemma truthyOpt_some {v : Option JsonVal} (h : truthyOpt v = true) :
    ∃ d, v = some d ∧ truthy d = true := by
  cases v with
  | none => simp [truthyOpt] at h
  | some d => exact ⟨d, rfl, h⟩

lemma jsDelete_not_null {d : JsonVal} (h : d ≠ JsonVal.jnull) (k : String) :
    jsDelete (some d) k = Except.ok (removeKey d k) := by
  cases d with
  | jnull => exact absurd rfl h
  | jbool b => rfl
  | jnum n => rfl
  | jstr s => rfl
  | jarr xs => rfl
  | jobj fs => rfl

lemma removeKey_ne_jnull {d : JsonVal} (h : d ≠ JsonVal.jnull) (k : String) :
    removeKey d k ≠ JsonVal.jnull := by
  cases d with
  | jnull => exact absurd rfl h
  | jbool b => exact h
  | jnum n => exact h
  | jstr s => exact h
  | jarr xs => exact h
  | jobj fs => simp [removeKey]

lemma fetchSingleResult_regNo (rn : String) (o : UpstreamOutcome) :
    (fetchSingleResult rn o).regNo = rn := by
  unfold fetchSingleResult
  repeat' split
  all_goals rfl

lemma fetchSingleResult_status (rn : String) (o : UpstreamOutcome) :
    (fetchSingleResult rn o).status = "success" ∨
    (fetchSingleResult rn o).status = "not_found" ∨
    (fetchSingleResult rn o).status = "error" := by
  unfold fetchSingleResult
  repeat' split
  all_goals simp

/-- On the values actually produced by `fetchSingleResult`, the two `delete`
statements of the success branch cannot throw, and the per-item
normalization computes `itemFor`. -/
lemma normalize_fulfilled_fetch (rn : String) (o : UpstreamOutcome) :
    normalizeSettled rn (Settled.fulfilled (fetchSingleResult rn o)) =
      Except.ok (itemFor rn o) := by
  rcases o with ⟨nm, msg⟩ | ⟨ok, hst, body⟩
  · rfl
  · cases ok with
  | false => rfl
  | true =>
    rcases body with v | ⟨nm2, msg2⟩
    swap
    · rfl
    rcases v with _ | b | n | s | xs | fs
    · rfl
    · rfl
    · rfl
    · rfl
    · rfl
    by_cases h404 : strictEqNum (getField (JsonVal.jobj fs) "status") 404 = true
    · simp [fetchSingleResult, normalizeSettled, itemFor, h404]
    by_cases hg : (!strictEqNum (getField (JsonVal.jobj fs) "status") 200 ||
                   !truthyOpt (getField (JsonVal.jobj fs) "data")) = true
    · simp [fetchSingleResult, normalizeSettled, itemFor, h404, hg]
    · have hdata : truthyOpt (getField (JsonVal.jobj fs) "data") = true := by
        rw [Bool.not_eq_true] at hg
        rcases Bool.or_eq_false_iff.1 hg with ⟨-, h2⟩
        simpa using h2
      obtain ⟨d, hd, htr⟩ := truthyOpt_some hdata
      have hfetch : fetchSingleResult rn (UpstreamOutcome.response true hst
          (JsonBody.parsed (JsonVal.jobj fs))) =
          { status := "success", regNo := rn, data := getField (JsonVal.jobj fs) "data" } := by
        unfold fetchSingleResult
        dsimp only
        rw [if_neg (by simp : ¬(true = false))]
        rw [if_neg h404, if_neg hg]
      have hne1 : d ≠ JsonVal.jnull := truthy_ne_jnull htr
      have hne2 : removeKey d "father_name" ≠ JsonVal.jnull := removeKey_ne_jnull hne1 _
      rw [normalizeSettled, itemFor, hfetch, hd]
      simp [jsDelete_not_null hne1, jsDelete_not_null hne2]

lemma mapSettledList_fulfilled (u : String → UpstreamOutcome) :
    ∀ l : List String,
    mapSettledList (l.map fun rn => (rn, Settled.fulfilled (fetchSingleResult rn (u rn)))) =
      Except.ok (l.map fun rn => itemFor rn (u rn)) := by
  intro l
  induction l with
  | nil => rfl
  | cons rn rest ih =>
    simp only [List.map_cons, mapSettledList, normalize_fulfilled_fetch, ih]

/-- The fetch phase never throws: it always produces the ordered list of
`itemFor` values over the constructed registration numbers. -/
lemma runBatch_eq (p : Prep) (oracle : String → UpstreamOutcome) :
    runBatch p oracle = Except.ok (p.regNos.map fun rn =>
      itemFor rn (oracle (targetUrlOf rn p.yearStr p.normalizedSemester p.encodedExamHeld))) := by
  rw [runBatch]
  exact mapSettledList_fulfilled
    (fun rn => oracle (targetUrlOf rn p.yearStr p.normalizedSemester p.encodedExamHeld)) p.regNos

/-! ## Lemmas about the produced batch items -/

lemma itemFor_regNo (rn : String) (o : UpstreamOutcome) : (itemFor rn o).regNo = rn := by
  rw [itemFor]
  repeat' split
  all_goals simpa using fetchSingleResult_regNo rn o

lemma fetchSingleResult_success_data (rn : String) (o : UpstreamOutcome)
    (h : (fetchSingleResult rn o).status = "success") :
    ∃ d, (fetchSingleResult rn o).data = some d ∧ truthy d = true := by
  rcases o with ⟨nm, msg⟩ | ⟨ok, hst, body⟩
  · simp [fetchSingleResult] at h
  · cases ok with
  | false => simp [fetchSingleResult] at h
  | true =>
    rcases body with v | ⟨nm2, msg2⟩
    swap
    · simp [fetchSingleResult] at h
    rcases v with _ | b | n | s | xs | fs
    · simp [fetchSingleResult] at h
    · simp [fetchSingleResult, getField, strictEqNum, truthyOpt] at h
    · simp [fetchSingleResult, getField, strictEqNum, truthyOpt] at h
    · simp [fetchSingleResult, getField, strictEqNum, truthyOpt] at h
    · simp [fetchSingleResult, getField, strictEqNum, truthyOpt] at h
    by_cases h404 : strictEqNum (getField (JsonVal.jobj fs) "status") 404 = true
    · simp [fetchSingleResult, h404] at h
    by_cases hg : (!strictEqNum (getField (JsonVal.jobj fs) "status") 200 ||
                   !truthyOpt (getField (JsonVal.jobj fs) "data")) = true
    · simp [fetchSingleResult, h404, hg] at h
    · have hdata : truthyOpt (getField (JsonVal.jobj fs) "data") = true := by
        rw [Bool.not_eq_true] at hg
        rcases Bool.or_eq_false_iff.1 hg with ⟨-, h2⟩
        simpa using h2
      obtain ⟨d, hd, htr⟩ := truthyOpt_some hdata
      have hfetch : fetchSingleResult rn (UpstreamOutcome.response true hst
          (JsonBody.parsed (JsonVal.jobj fs))) =
          { status := "success", regNo := rn, data := getField (JsonVal.jobj fs) "data" } := by
        unfold fetchSingleResult
        dsimp only
        rw [if_neg (by simp : ¬(true = false))]
        rw [if_neg h404, if_neg hg]
      rw [hfetch, hd]
      exact ⟨d, rfl, htr⟩

/-- Shape of every produced batch item: the status is one of the three
client-facing labels, successes carry data, and temporary errors carry a
reason. -/
lemma itemFor_shape (rn : String) (o : UpstreamOutcome) :
    ((itemFor rn o).status = "success" ∨ (itemFor rn o).status = "Record not found" ∨
     (itemFor rn o).status = "Error fetching result (temporary)") ∧
    ((itemFor rn o).status = "success" → (itemFor rn o).data.isSome = true) ∧
    ((itemFor rn o).status = "Error fetching result (temporary)" →
      (itemFor rn o).reason.isSome = true) := by
  rw [itemFor]
  split
  · rename_i hs
    obtain ⟨d, hd, -⟩ := fetchSingleResult_success_data rn o hs
    refine ⟨Or.inl rfl, fun _ => ?_, fun hc => ?_⟩
    · simp [hd]
    · simp at hc
  · split
    · exact ⟨Or.inr (Or.inl rfl), fun hc => by simp at hc, fun hc => by simp at hc⟩
    · exact ⟨Or.inr (Or.inr rfl), fun hc => by simp at hc, fun _ => rfl⟩

/-! ## String-prefix helpers for claim C8 -/

lemma append_ne_of_head {p q : String} (msg : String) {c : Char}
    (hp : p.data.head? = some c) (hq : q.data.head? ≠ some c) :
    p ++ msg ≠ q := by
  intro h
  apply hq
  have hdata : p.data ++ msg.data = q.data := congrArg String.data h
  cases hd : p.data with
  | nil => rw [hd] at hp; exact absurd hp (by simp)
  | cons a as =>
    rw [hd] at hp hdata
    rw [← hdata]
    simpa using hp

lemma append_ne_empty_of_head {p : String} (msg : String) {c : Char}
    (hp : p.data.head? = some c) : p ++ msg ≠ "" :=
  append_ne_of_head msg hp (by simp)

lemma jsOrStr_ne (f t2 : String) {s : String} (hs : s ≠ "") (h1 : s ≠ t2) :
    jsOrStr (some s) f ≠ t2 := by
  rw [jsOrStr]
  simpa [hs] using h1

/-- No batch item ever carries the `'Promise rejected'` fallback reason: the
error-branch reasons are `'Request Timed Out'`, `'Fetch Error: ...'`,
`'BEU API Error: HTTP ...'` or `'BEU API Data Error: ...'`, none of which is
that string, and success / not-found items carry no reason at all. -/
lemma itemFor_reason_ne_rejected (rn : String) (o : UpstreamOutcome) :
    (itemFor rn o).reason ≠ some "Promise rejected" := by
  have hF : ("Fetch Error: " : String).data.head? = some 'F' := rfl
  have hB1 : ("BEU API Error: HTTP " : String).data.head? = some 'B' := rfl
  have hB2 : ("BEU API Data Error: " : String).data.head? = some 'B' := rfl
  have hqP : ("Promise rejected" : String).data.head? ≠ some 'F' := by decide
  have hqB : ("Promise rejected" : String).data.head? ≠ some 'B' := by decide
  rcases o with ⟨nm, msg⟩ | ⟨ok, hst, body⟩
  · by_cases hab : nm = "AbortError"
    · simp [itemFor, fetchSingleResult, hab, jsOrStr]
    · have h3 := jsOrStr_ne "Unknown error" "Promise rejected"
        (append_ne_empty_of_head msg hF) (append_ne_of_head msg hF hqP)
      simp only [itemFor, fetchSingleResult, if_neg hab]
      simp [h3]
  · cases ok with
  | false =>
    have h3 := jsOrStr_ne "Unknown error" "Promise rejected"
      (append_ne_empty_of_head (jsNumToString hst) hB1)
      (append_ne_of_head (jsNumToString hst) hB1 hqB)
    simp [itemFor, fetchSingleResult, h3]
  | true =>
    rcases body with v | ⟨nm2, msg2⟩
    swap
    · have h3 := jsOrStr_ne "Unknown error" "Promise rejected"
        (append_ne_empty_of_head msg2 hF) (append_ne_of_head msg2 hF hqP)
      simp [itemFor, fetchSingleResult, h3]
    have hdataerr : ∀ m : String,
        jsOrStr (some ("BEU API Data Error: " ++ m)) "Unknown error" ≠ "Promise rejected" :=
      fun m => jsOrStr_ne "Unknown error" "Promise rejected"
        (append_ne_empty_of_head m hB2) (append_ne_of_head m hB2 hqB)
    rcases v with _ | b | n | s | xs | fs
    · simp [itemFor, fetchSingleResult, jsOrStr, nullStatusReadMessage]
    · simp [itemFor, fetchSingleResult, getField, strictEqNum, truthyOpt, jsOrVal,
        jsToStringOpt]
      decide
    · simp [itemFor, fetchSingleResult, getField, strictEqNum, truthyOpt, jsOrVal,
        jsToStringOpt]
      decide
    · simp [itemFor, fetchSingleResult, getField, strictEqNum, truthyOpt, jsOrVal,
        jsToStringOpt]
      decide
    · simp [itemFor, fetchSingleResult, getField, strictEqNum, truthyOpt, jsOrVal,
        jsToStringOpt]
      decide
    by_cases h404 : strictEqNum (getField (JsonVal.jobj fs) "status") 404 = true
    · simp [itemFor, fetchSingleResult, h404]
    by_cases hg : (!strictEqNum (getField (JsonVal.jobj fs) "status") 200 ||
                   !truthyOpt (getField (JsonVal.jobj fs) "data")) = true
    · have hfetch : fetchSingleResult rn (UpstreamOutcome.response true hst
          (JsonBody.parsed (JsonVal.jobj fs))) =
          { status := "error", regNo := rn,
            reason := some ("BEU API Data Error: " ++
              jsOrVal (getField (JsonVal.jobj fs) "message")
                ("Status " ++ jsToStringOpt (getField (JsonVal.jobj fs) "status"))) } := by
        unfold fetchSingleResult
        dsimp only
        rw [if_neg (by simp : ¬(true = false))]
        rw [if_neg h404, if_pos hg]
      have h3 := hdataerr (jsOrVal (getField (JsonVal.jobj fs) "message")
        ("Status " ++ jsToStringOpt (getField (JsonVal.jobj fs) "status")))
      simp [itemFor, hfetch, h3]
    · have hdata : truthyOpt (getField (JsonVal.jobj fs) "data") = true := by
        rw [Bool.not_eq_true] at hg
        rcases Bool.or_eq_false_iff.1 hg with ⟨-, h2⟩
        simpa using h2
      obtain ⟨d, hd, htr⟩ := truthyOpt_some hdata
      have hfetch : fetchSingleResult rn (UpstreamOutcome.response true hst
          (JsonBody.parsed (JsonVal.jobj fs))) =
          { status := "success", regNo := rn, data := getField (JsonVal.jobj fs) "data" } := by
        unfold fetchSingleResult
        dsimp only
        rw [if_neg (by simp : ¬(true = false))]
        rw [if_neg h404, if_neg hg]
      simp [itemFor, hfetch]

/-! ## Handler-level lemmas -/

lemma handler_of_validated {req : Request} (oracle : String → UpstreamOutcome) {p : Prep}
    (hm : req.method = "GET") (hv : validateAndPrep req.query = Except.ok p) :
    handler req oracle =
      ({ statusCode := 200, headers := corsHeaders,
         body := Body.batchJson (p.regNos.map fun rn =>
           itemFor rn (oracle (targetUrlOf rn p.yearStr p.normalizedSemester p.encodedExamHeld))) },
       issuedRequests p) := by
  rw [handler, hm]
  rw [if_neg (by simp : ¬(("GET" : String) = "OPTIONS"))]
  rw [if_neg (by simp : ¬(("GET" : String) ≠ "GET"))]
  rw [hv]
  dsimp only
  rw [runBatch_eq]

lemma handler_of_invalid {req : Request} (oracle : String → UpstreamOutcome) {msg : String}
    (hm : req.method = "GET") (hv : validateAndPrep req.query = Except.error msg) :
    handler req oracle =
      ({ statusCode := 400, headers := corsHeaders, body := Body.errorJson msg }, []) := by
  rw [handler, hm]
  rw [if_neg (by simp : ¬(("GET" : String) = "OPTIONS"))]
  rw [if_neg (by simp : ¬(("GET" : String) ≠ "GET"))]
  rw [hv]

/-! ## Validation lemmas -/

lemma parseIntNoRadix_empty : parseIntNoRadix "" = none := rfl

lemma romanNumerals_contains_ne_empty {s : String}
    (h : romanNumerals.contains s = true) : s ≠ "" := by
  intro he
  rw [he] at h
  exact absurd h (by decide)

/-- Inversion of a successful `result.js` validation: all four parameters
are present and well-formed, the dead `isNaN(startNum)` branch is not taken,
and the prepared data is determined by the query. -/
lemma validateAndPrep_ok_inv {q : Query} {p : Prep}
    (h : validateAndPrep q = Except.ok p) :
    ∃ rn y sem ex, q.reg_no = some rn ∧ q.year = some y ∧ q.semester = some sem ∧
      q.exam_held = some ex ∧ testRegexDigits11 rn = true ∧
      (parseIntNoRadix y).isNone = false ∧
      romanNumerals.contains (jsToUpperCase sem) = true ∧ ex ≠ "" ∧
      ∃ v : Nat, parseIntRadix10 (sliceLastThree rn) = some (v : Int) ∧ v ≤ 999 ∧
        decimalValue (sliceLastThree rn) = some v ∧
        p = { yearStr := y, normalizedSemester := jsToUpperCase sem,
              encodedExamHeld := encodeURIComponent ex,
              regNos := registrationNumbers (sliceUpToNeg3 rn) (v : Int) } := by
  rcases q with ⟨reg, yr, sem, ex⟩
  rcases reg with _ | rn
  · simp [validateAndPrep] at h
  by_cases h1 : rn = ""
  · simp [validateAndPrep, h1] at h
  by_cases h2 : testRegexDigits11 rn = false
  · simp [validateAndPrep, h1, h2] at h
  rw [Bool.not_eq_false] at h2
  rcases yr with _ | y
  · simp [validateAndPrep, h1, h2] at h
  by_cases h3 : y = ""
  · simp [validateAndPrep, h1, h2, h3] at h
  by_cases h4 : (parseIntNoRadix y).isNone = true
  · simp [validateAndPrep, h1, h2, h3, h4] at h
  rw [Bool.not_eq_true] at h4
  rcases sem with _ | sm
  · simp [validateAndPrep, h1, h2, h3, h4] at h
  by_cases h5 : jsToUpperCase sm = ""
  · simp [validateAndPrep, h1, h2, h3, h4, h5] at h
  by_cases h6 : romanNumerals.contains (jsToUpperCase sm) = false
  · have h6m : ¬(jsToUpperCase sm ∈ romanNumerals) := by simpa using h6
    simp [validateAndPrep, h1, h2, h3, h4, h5, h6m] at h
  rw [Bool.not_eq_false] at h6
  have h6m : jsToUpperCase sm ∈ romanNumerals := by simpa using h6
  rcases ex with _ | e
  · simp [validateAndPrep, h1, h2, h3, h4, h5, h6m] at h
  by_cases h7 : e = ""
  · simp [validateAndPrep, h1, h2, h3, h4, h5, h6m, h7] at h
  obtain ⟨v, hv, hle, hdec⟩ := startNum_parse h2
  refine ⟨rn, y, sm, e, rfl, rfl, rfl, rfl, h2, h4, h6, h7, v, hv, hle, hdec, ?_⟩
  simp [validateAndPrep, h1, h2, h3, h4, h5, h6m, h7, hv] at h
  exact h.symm

/-- Forward direction: four well-formed parameters pass `result.js`
validation. -/
lemma validateAndPrep_ok_of {rn y sem ex : String} (ht : testRegexDigits11 rn = true)
    (hy : (parseIntNoRadix y).isNone = false)
    (hsem : romanNumerals.contains (jsToUpperCase sem) = true)
    (hex : ex ≠ "") :
    ∃ v : Nat, parseIntRadix10 (sliceLastThree rn) = some (v : Int) ∧
      validateAndPrep { reg_no := some rn, year := some y, semester := some sem,
                        exam_held := some ex } =
        Except.ok { yearStr := y, normalizedSemester := jsToUpperCase sem,
                    encodedExamHeld := encodeURIComponent ex,
                    regNos := registrationNumbers (sliceUpToNeg3 rn) (v : Int) } := by
  obtain ⟨v, hv, hle, hdec⟩ := startNum_parse ht
  have h1 : rn ≠ "" := ne_empty_of_digits11 ht
  have h3 : y ≠ "" := by
    intro he
    rw [he, parseIntNoRadix_empty] at hy
    simp at hy
  have h5 : jsToUpperCase sem ≠ "" := romanNumerals_contains_ne_empty hsem
  have hsm : jsToUpperCase sem ∈ romanNumerals := by simpa using hsem
  refine ⟨v, hv, ?_⟩
  simp [validateAndPrep, h1, ht, h3, hy, h5, hsm, hex, hv]

lemma specValidationRejects_false_of_ok {q : Query} {p : Prep}
    (h : validateAndPrep q = Except.ok p) : specValidationRejects q = false := by
  obtain ⟨rn, y, sem, ex, hr, hy, hs, he, ht, hyn, hsem, hex, -⟩ := validateAndPrep_ok_inv h
  rw [testRegexDigits11] at ht
  have hsm : jsToUpperCase sem ∈ romanNumerals := by simpa using hsem
  simp [specValidationRejects, hr, hy, hs, he, hyn, hsm, hex]
  simpa using ht

lemma validateAndPrep_error_of_rejects {q : Query} (h : specValidationRejects q = true) :
    ∃ msg, validateAndPrep q = Except.error msg := by
  cases hv : validateAndPrep q with
  | error msg => exact ⟨msg, rfl⟩
  | ok p =>
    rw [specValidationRejects_false_of_ok hv] at h
    cases h

lemma validateAndPrep_ok_of_not_rejects {q : Query} (h : specValidationRejects q = false) :
    ∃ p, validateAndPrep q = Except.ok p := by
  rcases q with ⟨reg, yr, sem, ex⟩
  rcases reg with _ | rn
  · simp [specValidationRejects] at h
  rcases yr with _ | y
  · simp [specValidationRejects] at h
  rcases sem with _ | sm
  · simp [specValidationRejects] at h
  rcases ex with _ | e
  · simp [specValidationRejects] at h
  simp only [specValidationRejects, Bool.or_eq_false_iff] at h
  obtain ⟨⟨⟨h1, h2⟩, h3⟩, h4⟩ := h
  have ht : testRegexDigits11 rn = true := by
    rw [testRegexDigits11]
    simpa using h1
  have hsem : romanNumerals.contains (jsToUpperCase sm) = true := by simpa using h3
  have hex : e ≠ "" := by simpa using h4
  obtain ⟨v, hv, hok⟩ := validateAndPrep_ok_of ht h2 hsem hex
  exact ⟨_, hok⟩

/-! ## Field-stripping lemmas (claim C1) -/

lemma getField_some_jobj {v : JsonVal} {k : String} {w : JsonVal}
    (h : getField v k = some w) : ∃ fs, v = JsonVal.jobj fs := by
  cases v with
  | jobj fs => exact ⟨fs, rfl⟩
  | jnull => simp [getField] at h
  | jbool b => simp [getField] at h
  | jnum n => simp [getField] at h
  | jstr s => simp [getField] at h
  | jarr xs => simp [getField] at h

/-- Deleting `father_name` then `mother_name` keeps exactly the fields whose
key is neither. -/
lemma strip_filter_eq (fields : List (String × JsonVal)) :
    removeKey (removeKey (JsonVal.jobj fields) "father_name") "mother_name" =
      JsonVal.jobj (fields.filter fun f =>
        !(f.1 == "father_name") && !(f.1 == "mother_name")) := by
  simp only [removeKey]
  rw [List.filter_filter]
  congr 1
  exact List.filter_congr fun a _ => Bool.and_comm _ _

lemma mem_strip_iff (fields : List (String × JsonVal)) (k : String) (v : JsonVal)
    (h1 : k ≠ "father_name") (h2 : k ≠ "mother_name") :
    (k, v) ∈ fields ↔ (k, v) ∈ fields.filter fun f =>
      !(f.1 == "father_name") && !(f.1 == "mother_name") := by
  rw [List.mem_filter]
  simp [h1, h2]

lemma not_mem_strip (fields : List (String × JsonVal)) (v : JsonVal) :
    ("father_name", v) ∉ (fields.filter fun f =>
      !(f.1 == "father_name") && !(f.1 == "mother_name")) ∧
    ("mother_name", v) ∉ (fields.filter fun f =>
      !(f.1 == "father_name") && !(f.1 == "mother_name")) := by
  constructor <;> (intro hmem; rw [List.mem_filter] at hmem; simp at hmem)

/-- The batch item for an upstream success (`ok` response, JSON status 200,
truthy `data` object): status `'success'` and the data object with exactly
the two personally-identifying fields removed. -/
lemma itemFor_success_of (rn : String) (hst : Int) (body : JsonVal)
    (fields : List (String × JsonVal))
    (h200 : getField body "status" = some (JsonVal.jnum 200))
    (hdata : getField body "data" = some (JsonVal.jobj fields)) :
    itemFor rn (UpstreamOutcome.response true hst (JsonBody.parsed body)) =
      { regNo := rn, status := "success",
        data := some (JsonVal.jobj (fields.filter fun f =>
          !(f.1 == "father_name") && !(f.1 == "mother_name"))) } := by
  obtain ⟨bf, rfl⟩ := getField_some_jobj h200
  have h404 : strictEqNum (getField (JsonVal.jobj bf) "status") 404 = false := by
    rw [h200]
    rfl
  have hg : (!strictEqNum (getField (JsonVal.jobj bf) "status") 200 ||
             !truthyOpt (getField (JsonVal.jobj bf) "data")) = false := by
    rw [h200, hdata]
    rfl
  have hfetch : fetchSingleResult rn (UpstreamOutcome.response true hst
      (JsonBody.parsed (JsonVal.jobj bf))) =
      { status := "success", regNo := rn, data := getField (JsonVal.jobj bf) "data" } := by
    unfold fetchSingleResult
    dsimp only
    rw [if_neg (by simp : ¬(true = false))]
    rw [if_neg (by simp [h404]), if_neg (by simp [hg])]
  rw [itemFor, hfetch, hdata]
  simp [strip_filter_eq]

/-! ## Length helpers (claim C10) -/

lemma str_length_append (a b : String) :
    (a ++ b).data.length = a.data.length + b.data.length := by
  show (a.data ++ b.data).length = _
  simp

lemma sliceUpToNeg3_of_digits11 {s : String} (h : testRegexDigits11 s = true) :
    (sliceUpToNeg3 s).data.length = 8 := by
  have hlen := (testRegexDigits11_iff.1 h).1
  show (s.data.take (s.data.length - 3)).length = 8
  rw [List.length_take, hlen]
  decide

lemma registrationNumbers_length (pfx : String) (i : Int) :
    (registrationNumbers pfx i).length = BATCH_SIZE := by
  rw [registrationNumbers]
  simp only [List.length_map, List.length_range]

/-! ## Claim theorems -/

/-- Claim C7: the handler is stateless and deterministic — two invocations
with identical requests whose upstream responses agree on each constructed
URL (the URLs of the fetches the handler issues; the oracles may differ on
every other URL) produce identical responses (status code, headers and
body) and identical issued fetches.  The embedding is a pure function of
the request and the upstream oracle, mirroring the absence of module-level
mutable state in the source (only `const` configuration), and the proof
shows the handler consults the upstream only at the constructed URLs. -/
theorem c7_handler_deterministic (req1 req2 : Request)
    (o1 o2 : String → UpstreamOutcome) (hr : req1 = req2)
    (ho : ∀ fr ∈ (handler req1 o1).2, o1 fr.url = o2 fr.url) :
    handler req1 o1 = handler req2 o2 := by
  subst hr
  by_cases h1 : req1.method = "OPTIONS"
  · rw [handler, handler, if_pos h1, if_pos h1]
  by_cases h2 : req1.method = "GET"
  swap
  · rw [handler, handler, if_neg h1, if_neg h1, if_pos h2, if_pos h2]
  cases hv : validateAndPrep req1.query with
  | error msg => rw [handler_of_invalid o1 h2 hv, handler_of_invalid o2 h2 hv]
  | ok p =>
    rw [handler_of_validated o1 h2 hv, handler_of_validated o2 h2 hv]
    have ho2 : ∀ rn ∈ p.regNos,
        o1 (targetUrlOf rn p.yearStr p.normalizedSemester p.encodedExamHeld) =
        o2 (targetUrlOf rn p.yearStr p.normalizedSemester p.encodedExamHeld) := by
      intro rn hrn
      have hmem : fetchRequestOf rn p.yearStr p.normalizedSemester p.encodedExamHeld
          ∈ (handler req1 o1).2 := by
        rw [handler_of_validated o1 h2 hv]
        exact List.mem_map.2 ⟨rn, hrn, rfl⟩
      exact ho _ hmem
    have hmap : (p.regNos.map fun rn => itemFor rn
          (o1 (targetUrlOf rn p.yearStr p.normalizedSemester p.encodedExamHeld))) =
        (p.regNos.map fun rn => itemFor rn
          (o2 (targetUrlOf rn p.yearStr p.normalizedSemester p.encodedExamHeld))) :=
      List.map_congr_left fun rn hrn => by rw [ho2 rn hrn]
    rw [hmap]

/-- Witness for C7: two oracles that disagree at an unrelated URL but agree
on the five constructed URLs give identical responses. -/
theorem c7_handler_deterministic_witness :
    oracleS "https://example.com/unrelated" ≠ oracleT "https://example.com/unrelated" ∧
    handler req0 oracleS = handler req0 oracleT :=
  ⟨by simp [oracleS, oracleT],
   c7_handler_deterministic req0 req0 oracleS oracleT rfl (by
    intro fr hfr
    have hfr2 : fr ∈ [fetchRequestOf "22105114001" "2024" "I" "Dec2024",
        fetchRequestOf "22105114002" "2024" "I" "Dec2024",
        fetchRequestOf "22105114003" "2024" "I" "Dec2024",
        fetchRequestOf "22105114004" "2024" "I" "Dec2024",
        fetchRequestOf "22105114005" "2024" "I" "Dec2024"] := hfr
    simp only [List.mem_cons, List.not_mem_nil, or_false] at hfr2
    rcases hfr2 with rfl | rfl | rfl | rfl | rfl <;> rfl)⟩

/-- Claim C6: every upstream fetch issued by the handler carries the abort
timer of `FETCH_TIMEOUT = 8000` milliseconds, and a fetch failing with an
error named `'AbortError'` yields `status: 'error'` with reason
`'Request Timed Out'` instead of propagating the exception
(`fetchSingleResult` is total). -/
theorem c6_timeout_and_abort :
    FETCH_TIMEOUT = 8000 ∧
    (∀ (req : Request) (oracle : String → UpstreamOutcome) (fr : FetchRequest),
      fr ∈ (handler req oracle).2 → fr.timeoutMs = FETCH_TIMEOUT) ∧
    (∀ rn msg : String,
      fetchSingleResult rn (UpstreamOutcome.threw "AbortError" msg) =
        { status := "error", regNo := rn, reason := some "Request Timed Out" }) := by
  refine ⟨rfl, ?_, ?_⟩
  · intro req oracle fr hfr
    rw [handler] at hfr
    split at hfr
    · simp at hfr
    split at hfr
    · simp at hfr
    · split at hfr
      · simp at hfr
      · split at hfr <;>
        · simp only [issuedRequests, List.mem_map] at hfr
          obtain ⟨rn, -, hfr⟩ := hfr
          rw [← hfr]
          rfl
  · intro rn msg
    simp [fetchSingleResult]

/-- Witness for C6: the first fetch of the fixture run carries the 8000ms
timer. -/
theorem c6_timeout_and_abort_witness :
    (fetchRequestOf "22105114001" "2024" "I" "Dec2024").timeoutMs = FETCH_TIMEOUT :=
  c6_timeout_and_abort.2.1 req0 oracleS _ (by decide)

/-- Claim C8: `fetchSingleResult` never rejects — for every upstream outcome
it resolves to an object whose status is `'success'`, `'not_found'` or
`'error'` — and consequently no item of any batch response ever carries the
`'Promise rejected'` fallback reason of the rejected-promise branch. -/
theorem c8_fetch_never_rejects :
    (∀ (rn : String) (o : UpstreamOutcome),
      (fetchSingleResult rn o).status = "success" ∨
      (fetchSingleResult rn o).status = "not_found" ∨
      (fetchSingleResult rn o).status = "error") ∧
    (∀ (p : Prep) (oracle : String → UpstreamOutcome) (items : List BatchItem),
      runBatch p oracle = Except.ok items →
      ∀ item ∈ items, item.reason ≠ some "Promise rejected") := by
  refine ⟨fetchSingleResult_status, ?_⟩
  intro p oracle items hrb item hitem
  rw [runBatch_eq] at hrb
  injection hrb with hrb
  rw [← hrb] at hitem
  obtain ⟨rn, -, hi⟩ := List.mem_map.1 hitem
  rw [← hi]
  exact itemFor_reason_ne_rejected _ _

/-- Witness for C8 at the fixture run. -/
theorem c8_fetch_never_rejects_witness :
    (item0 "22105114001").reason ≠ some "Promise rejected" :=
  c8_fetch_never_rejects.2 p0 oracleS items0 rfl (item0 "22105114001") (List.Mem.head _)

/-- Claim C9: the response array preserves the order of the constructed
batch — the i-th item of the batch response has `regNo` equal to
`registrationNumbers[i]`. -/
theorem c9_order_preserved (req : Request) (oracle : String → UpstreamOutcome) (p : Prep)
    (i : Nat) (hm : req.method = "GET") (hv : validateAndPrep req.query = Except.ok p)
    (hi : i < p.regNos.length) :
    ∃ items : List BatchItem,
      (handler req oracle).1.body = Body.batchJson items ∧
      items.length = p.regNos.length ∧
      ∀ hi2 : i < items.length,
        (items.get ⟨i, hi2⟩).regNo = p.regNos.get ⟨i, hi⟩ := by
  rw [handler_of_validated oracle hm hv]
  refine ⟨_, rfl, by simp, ?_⟩
  intro hi2
  simp [List.get_eq_getElem, List.getElem_map, itemFor_regNo]

/-- Witness for C9 at index 2 of the fixture run. -/
theorem c9_order_preserved_witness :
    ∃ items : List BatchItem,
      (handler req0 oracleS).1.body = Body.batchJson items ∧
      items.length = p0.regNos.length ∧
      ∀ hi2 : 2 < items.length,
        (items.get ⟨2, hi2⟩).regNo = p0.regNos.get ⟨2, by decide⟩ :=
  c9_order_preserved req0 oracleS p0 2 rfl rfl (by decide)

/-- Claim C5: for every request passing validation the handler responds 200
with a JSON array of exactly `BATCH_SIZE = 5` items, each carrying a `regNo`
and a status among `'success'`, `'Record not found'` and
`'Error fetching result (temporary)'`; successes carry `data` and temporary
errors carry a `reason`. -/
theorem c5_response_shape (req : Request) (oracle : String → UpstreamOutcome) (p : Prep)
    (hm : req.method = "GET") (hv : validateAndPrep req.query = Except.ok p) :
    ∃ items : List BatchItem,
      (handler req oracle).1.statusCode = 200 ∧
      (handler req oracle).1.body = Body.batchJson items ∧
      items.length = BATCH_SIZE ∧
      ∀ item ∈ items,
        (item.regNo ∈ p.regNos) ∧
        (item.status = "success" ∨ item.status = "Record not found" ∨
         item.status = "Error fetching result (temporary)") ∧
        (item.status = "success" → item.data.isSome = true) ∧
        (item.status = "Error fetching result (temporary)" → item.reason.isSome = true) := by
  rw [handler_of_validated oracle hm hv]
  refine ⟨_, rfl, rfl, ?_, ?_⟩
  · obtain ⟨rn, y, sem, ex, -, -, -, -, -, -, -, -, v, -, -, -, hp⟩ :=
      validateAndPrep_ok_inv hv
    rw [hp]
    simp only [List.length_map]
    exact registrationNumbers_length _ _
  · intro item hitem
    obtain ⟨rn2, hrn2, hi⟩ := List.mem_map.1 hitem
    refine ⟨?_, ?_⟩
    · rw [← hi, itemFor_regNo]
      exact hrn2
    · rw [← hi]
      exact itemFor_shape _ _

/-- Witness for C5 at the fixture run. -/
theorem c5_response_shape_witness :
    ∃ items : List BatchItem,
      (handler req0 oracleS).1.statusCode = 200 ∧
      (handler req0 oracleS).1.body = Body.batchJson items ∧
      items.length = BATCH_SIZE ∧
      ∀ item ∈ items,
        (item.regNo ∈ p0.regNos) ∧
        (item.status = "success" ∨ item.status = "Record not found" ∨
         item.status = "Error fetching result (temporary)") ∧
        (item.status = "success" → item.data.isSome = true) ∧
        (item.status = "Error fetching result (temporary)" → item.reason.isSome = true) :=
  c5_response_shape req0 oracleS p0 rfl rfl

/-- Claim C3: the two handlers are the same up to the `reg_no` validation,
and they genuinely diverge there — on the request `q0`, whose `reg_no` is a
string of exactly 11 decimal digits with valid year, semester and exam_held,
`result.js` passes validation (its regex `/^\d{11}$/` accepts), while
`part_000` returns HTTP 400 with no upstream fetch (its buggy regex
`/^d{11}$/` only accepts eleven literal `d` characters). -/
theorem c3_part000_regex_divergence :
    q0.reg_no = some "22105114001" ∧
    ("22105114001" : String).data.length = 11 ∧
    (∀ c ∈ ("22105114001" : String).data, isDigitChar c = true) ∧
    (parseIntNoRadix "2024").isSome = true ∧
    romanNumerals.contains (jsToUpperCase "i") = true ∧
    ("Dec2024" : String) ≠ "" ∧
    testRegexDigits11 "22105114001" = true ∧
    testRegexLiteralD11 "22105114001" = false ∧
    validateAndPrep q0 = Except.ok p0 ∧
    (∀ oracle : String → UpstreamOutcome,
      (handlerPart000 req0 oracle).1.statusCode = 400 ∧
      (handlerPart000 req0 oracle).2 = []) := by
  refine ⟨rfl, by decide, by decide, by decide, by decide, by decide, by decide,
    by decide, rfl, ?_⟩
  intro oracle
  exact ⟨rfl, rfl⟩

/-- Claim C4: a GET request is answered 400 with an error object and no
upstream fetch exactly when `reg_no` is missing or not 11 decimal digits, or
`year` is missing or unparsable, or the uppercased `semester` is not a Roman
numeral I-VIII, or `exam_held` is missing or empty; otherwise validation
passes and the batch of `BATCH_SIZE` fetches is issued (the
`isNaN(startNum)` branch is dead). -/
theorem c4_validation_gate (req : Request) (oracle : String → UpstreamOutcome)
    (hm : req.method = "GET") :
    (specValidationRejects req.query = true →
      (handler req oracle).1.statusCode = 400 ∧
      (∃ msg, (handler req oracle).1.body = Body.errorJson msg) ∧
      (handler req oracle).2 = []) ∧
    (specValidationRejects req.query = false →
      ∃ p, validateAndPrep req.query = Except.ok p ∧
        (handler req oracle).2 = issuedRequests p ∧
        (handler req oracle).2.length = BATCH_SIZE) := by
  constructor
  · intro h
    obtain ⟨msg, hv⟩ := validateAndPrep_error_of_rejects h
    rw [handler_of_invalid oracle hm hv]
    exact ⟨rfl, ⟨msg, rfl⟩, rfl⟩
  · intro h
    obtain ⟨p, hv⟩ := validateAndPrep_ok_of_not_rejects h
    refine ⟨p, hv, ?_, ?_⟩
    · rw [handler_of_validated oracle hm hv]
    · rw [handler_of_validated oracle hm hv]
      obtain ⟨rn, y, sem, ex, -, -, -, -, -, -, -, -, v, -, -, -, hp⟩ :=
        validateAndPrep_ok_inv hv
      rw [hp]
      show (issuedRequests _).length = BATCH_SIZE
      rw [issuedRequests, List.length_map]
      exact registrationNumbers_length _ _

/-- Witness for C4 at the fixture request. -/
theorem c4_validation_gate_witness :
    (specValidationRejects req0.query = true →
      (handler req0 oracleS).1.statusCode = 400 ∧
      (∃ msg, (handler req0 oracleS).1.body = Body.errorJson msg) ∧
      (handler req0 oracleS).2 = []) ∧
    (specValidationRejects req0.query = false →
      ∃ p, validateAndPrep req0.query = Except.ok p ∧
        (handler req0 oracleS).2 = issuedRequests p ∧
        (handler req0 oracleS).2.length = BATCH_SIZE) :=
  c4_validation_gate req0 oracleS rfl

/-- Claim C2: a validated request constructs exactly `BATCH_SIZE = 5`
registration numbers — the first 8 characters of `reg_no` followed by the
decimal string of `startNum + k` (k = 0..4) zero-padded to at least 3
digits, where `startNum` is the integer value of the last 3 digits of
`reg_no` — and issues exactly one upstream fetch per constructed number, in
order, with no retries. -/
theorem c2_batch_construction (req : Request) (oracle : String → UpstreamOutcome) (p : Prep)
    (hm : req.method = "GET") (hv : validateAndPrep req.query = Except.ok p) :
    BATCH_SIZE = 5 ∧
    ∃ rn : String, req.query.reg_no = some rn ∧
      ∃ startNum : Nat, decimalValue ⟨rn.data.drop 8⟩ = some startNum ∧
        p.regNos.length = BATCH_SIZE ∧
        p.regNos = (List.range BATCH_SIZE).map (fun k : Nat =>
          (⟨rn.data.take 8⟩ : String) ++
            padStart3 (jsNumToString ((startNum : Int) + (k : Int)))) ∧
        (handler req oracle).2 = p.regNos.map (fun r2 =>
          fetchRequestOf r2 p.yearStr p.normalizedSemester p.encodedExamHeld) := by
  obtain ⟨rn, y, sem, ex, hr, -, -, -, ht, -, -, -, v, hv2, hle, hdec, hp⟩ :=
    validateAndPrep_ok_inv hv
  have hlen := (testRegexDigits11_iff.1 ht).1
  have hs3 : sliceLastThree rn = (⟨rn.data.drop 8⟩ : String) := by
    rw [sliceLastThree, hlen]
  have ht8 : sliceUpToNeg3 rn = (⟨rn.data.take 8⟩ : String) := by
    rw [sliceUpToNeg3, hlen]
  refine ⟨rfl, rn, hr, v, ?_, ?_, ?_, ?_⟩
  · rw [← hs3]
    exact hdec
  · rw [hp]
    exact registrationNumbers_length _ _
  · rw [hp]
    show registrationNumbers (sliceUpToNeg3 rn) (v : Int) = _
    rw [registrationNumbers, ht8]
    apply List.map_congr_left
    intro k hk
    congr 1
    exact suffixFor_eq_padStart (by omega)
  · rw [handler_of_validated oracle hm hv]
    rfl

/-- Witness for C2 at the fixture request. -/
theorem c2_batch_construction_witness :
    BATCH_SIZE = 5 ∧
    ∃ rn : String, req0.query.reg_no = some rn ∧
      ∃ startNum : Nat, decimalValue ⟨rn.data.drop 8⟩ = some startNum ∧
        p0.regNos.length = BATCH_SIZE ∧
        p0.regNos = (List.range BATCH_SIZE).map (fun k : Nat =>
          (⟨rn.data.take 8⟩ : String) ++
            padStart3 (jsNumToString ((startNum : Int) + (k : Int)))) ∧
        (handler req0 oracleS).2 = p0.regNos.map (fun r2 =>
          fetchRequestOf r2 p0.yearStr p0.normalizedSemester p0.encodedExamHeld) :=
  c2_batch_construction req0 oracleS p0 rfl rfl

/-- Claim C10: when the last three digits of a valid `reg_no` parse to at
most 995 all five constructed registration numbers have 11 characters; from
996 on the suffix range crosses 1000 and the later numbers have 12
characters (8-character prefix plus 4-digit suffix), so the batch queries
numbers longer than any accepted `reg_no`. -/
theorem c10_suffix_rollover (rn : String) (s : Nat)
    (h11 : testRegexDigits11 rn = true)
    (hs : parseIntRadix10 (sliceLastThree rn) = some (s : Int)) :
    (s ≤ 995 → ∀ x ∈ registrationNumbers (sliceUpToNeg3 rn) (s : Int),
      x.data.length = 11) ∧
    (996 ≤ s →
      (∀ k, ∀ hk : k < (registrationNumbers (sliceUpToNeg3 rn) (s : Int)).length,
        ((registrationNumbers (sliceUpToNeg3 rn) (s : Int)).get ⟨k, hk⟩).data.length =
          if s + k ≤ 999 then 11 else 12) ∧
      ∃ x ∈ registrationNumbers (sliceUpToNeg3 rn) (s : Int), x.data.length = 12) := by
  have hle : s ≤ 999 := by
    obtain ⟨v, hv, hvle, -⟩ := startNum_parse h11
    rw [hv] at hs
    have hvs : (v : Int) = (s : Int) := by injection hs
    omega
  have hpfx : (sliceUpToNeg3 rn).data.length = 8 := sliceUpToNeg3_of_digits11 h11
  refine ⟨?_, ?_⟩
  · intro h995 x hx
    rw [registrationNumbers] at hx
    obtain ⟨k, hk, hxe⟩ := List.mem_map.1 hx
    rw [List.mem_range] at hk
    have hk5 : k < 5 := by simpa [BATCH_SIZE] using hk
    have h3 : (suffixFor ((s : Int) + (k : Int))).data.length = 3 :=
      suffix_length_le_999 (by omega) (by omega)
    rw [← hxe, str_length_append, hpfx, h3]
  · intro h996
    constructor
    · intro k hk
      have hk5 : k < 5 := by
        rw [registrationNumbers_length] at hk
        simpa [BATCH_SIZE] using hk
      simp only [registrationNumbers, List.get_eq_getElem, List.getElem_map,
        List.getElem_range]
      rw [str_length_append, hpfx]
      by_cases hcase : s + k ≤ 999
      · rw [if_pos hcase, suffix_length_le_999 (by omega) (by omega)]
      · rw [if_neg hcase, suffix_length_1000 (by omega) (by omega)]
    · rw [registrationNumbers]
      refine ⟨_, List.mem_map.2 ⟨4, List.mem_range.2 (by decide), rfl⟩, ?_⟩
      rw [str_length_append, hpfx, suffix_length_1000 (by omega) (by omega)]

/-- Witness for C10 at a `reg_no` whose suffix range crosses 1000. -/
theorem c10_suffix_rollover_witness :
    ((997 : Nat) ≤ 995 → ∀ x ∈ registrationNumbers (sliceUpToNeg3 "22105114997")
      ((997 : Nat) : Int), x.data.length = 11) ∧
    (996 ≤ (997 : Nat) →
      (∀ k, ∀ hk : k < (registrationNumbers (sliceUpToNeg3 "22105114997")
          ((997 : Nat) : Int)).length,
        ((registrationNumbers (sliceUpToNeg3 "22105114997")
            ((997 : Nat) : Int)).get ⟨k, hk⟩).data.length =
          if 997 + k ≤ 999 then 11 else 12) ∧
      ∃ x ∈ registrationNumbers (sliceUpToNeg3 "22105114997") ((997 : Nat) : Int),
        x.data.length = 12) :=
  c10_suffix_rollover "22105114997" 997 (by decide) (by decide)

/-- A `get` over a mapped list evaluates the function at the corresponding
element. -/
lemma get_map_eq {α β : Type _} (f : α → β) (l : List α) (i : Nat) (h : i < l.length)
    (h2 : i < (l.map f).length) : (l.map f).get ⟨i, h2⟩ = f (l.get ⟨i, h⟩) := by
  simp

/-- Claim C1: for a validated request, a batch item whose upstream fetch
succeeds (HTTP ok, JSON status 200, truthy `data` object) carries the
upstream data object with exactly `father_name` and `mother_name` removed
and every other field unchanged. -/
theorem c1_success_strips_exactly_pii (req : Request) (oracle : String → UpstreamOutcome)
    (p : Prep) (i : Nat) (hst : Int) (body : JsonVal)
    (fields : List (String × JsonVal))
    (hm : req.method = "GET") (hv : validateAndPrep req.query = Except.ok p)
    (hi : i < p.regNos.length)
    (ho : oracle (targetUrlOf (p.regNos.get ⟨i, hi⟩) p.yearStr p.normalizedSemester
            p.encodedExamHeld) = UpstreamOutcome.response true hst (JsonBody.parsed body))
    (h200 : getField body "status" = some (JsonVal.jnum 200))
    (hdata : getField body "data" = some (JsonVal.jobj fields)) :
    ∃ items : List BatchItem,
      (handler req oracle).1.statusCode = 200 ∧
      (handler req oracle).1.body = Body.batchJson items ∧
      ∃ hlen : i < items.length,
        items.get ⟨i, hlen⟩ =
          { regNo := p.regNos.get ⟨i, hi⟩, status := "success",
            data := some (JsonVal.jobj (fields.filter fun f =>
              !(f.1 == "father_name") && !(f.1 == "mother_name"))) } ∧
        (∀ k v, k ≠ "father_name" → k ≠ "mother_name" →
          ((k, v) ∈ fields ↔ (k, v) ∈ fields.filter fun f =>
            !(f.1 == "father_name") && !(f.1 == "mother_name"))) ∧
        (∀ v, ("father_name", v) ∉ (fields.filter fun f =>
            !(f.1 == "father_name") && !(f.1 == "mother_name")) ∧
          ("mother_name", v) ∉ (fields.filter fun f =>
            !(f.1 == "father_name") && !(f.1 == "mother_name"))) := by
  rw [handler_of_validated oracle hm hv]
  refine ⟨_, rfl, rfl, ?_⟩
  have hlen2 : i < (p.regNos.map fun rn => itemFor rn (oracle (targetUrlOf rn p.yearStr
      p.normalizedSemester p.encodedExamHeld))).length := by
    simpa using hi
  refine ⟨hlen2, ?_, fun k v h1 h2 => mem_strip_iff fields k v h1 h2,
    fun v => not_mem_strip fields v⟩
  rw [get_map_eq _ _ i hi]
  rw [ho]
  exact itemFor_success_of _ hst body fields h200 hdata

/-- Witness for C1 at index 0 of the fixture run. -/
theorem c1_success_strips_exactly_pii_witness :
    ∃ items : List BatchItem,
      (handler req0 oracleS).1.statusCode = 200 ∧
      (handler req0 oracleS).1.body = Body.batchJson items ∧
      ∃ hlen : 0 < items.length,
        items.get ⟨0, hlen⟩ =
          { regNo := p0.regNos.get ⟨0, by decide⟩, status := "success",
            data := some (JsonVal.jobj (fields0.filter fun f =>
              !(f.1 == "father_name") && !(f.1 == "mother_name"))) } ∧
        (∀ k v, k ≠ "father_name" → k ≠ "mother_name" →
          ((k, v) ∈ fields0 ↔ (k, v) ∈ fields0.filter fun f =>
            !(f.1 == "father_name") && !(f.1 == "mother_name"))) ∧
        (∀ v, ("father_name", v) ∉ (fields0.filter fun f =>
            !(f.1 == "father_name") && !(f.1 == "mother_name")) ∧
          ("mother_name", v) ∉ (fields0.filter fun f =>
            !(f.1 == "father_name") && !(f.1 == "mother_name"))) :=
  c1_success_strips_exactly_pii req0 oracleS p0 0 200 body0 fields0 rfl rfl
    (by decide) rfl rfl rfl

end BeuProxy
